import Mathlib

/-!
Verification of the fused-attention kernel generator
(`xformers/csrc/attention/cuda/fmha/kernels/generate_kernels.py`).

The generator enumerates forward (`FwdKernel`) and backward (`BwdKernel`)
kernel variants, orders them with the dataclass comparator (lexicographic
comparison of the field tuple, whose first field is the derived
`sort_index`), partitions them into dispatch categories and compilation
units, and renders C++ declaration/implementation artifacts.

The embedding below mirrors the Python source: enumeration tables, the
variant records, the derived `sort_index`, the canonical names, template
instantiations, the rendered entry-point text, and the grouping/emission
pipeline of `write_decl_impl`.  Python `@dataclass(order=True)` compares
instances by the tuple of all fields in declaration order; this is embedded
as the lexicographic key `cmpKey` together with the linear order it
induces.
-/

/-- Mapping from precision tag to C++ scalar type (`DTYPES`, in insertion
order of the Python dict). -/
def DTYPES : List (String × String) :=
  [("f32", "float"), ("f16", "cutlass::half_t"), ("bf16", "cutlass::bfloat16_t")]

/-- `DTYPES[dt]` lookup. -/
def dtypeCpp (dt : String) : String :=
  ((DTYPES.find? fun p => p.1 == dt).map Prod.snd).getD ""

/-- Architecture capability boundaries (`SM`). -/
def SM : List Nat := [50, 70, 75, 80]

/-- Consecutive capability ranges `zip(SM, SM[1:] + [90])`. -/
def smRanges : List (Nat × Nat) := SM.zip (SM.tail ++ [90])

/-- The rendered entry-point text (`KERNEL_IMPL_TEMPLATE` with the four
placeholders substituted; `{{`/`}}` of the Python format string render as
literal braces, written `\x7b`/`\x7d` here). -/
def KERNEL_IMPL_TEMPLATE (CPP_CLASS NAME SM_S SM_MAX_S : String) : String :=
  ("__global__ void __launch_bounds__(\n    " ++ CPP_CLASS ++ "::kNumThreads,\n    "
      ++ CPP_CLASS ++ "::kMinBlocksPerSm)\n" ++ NAME ++ "(typename " ++ CPP_CLASS
      ++ "::Params p) \x7b\n#ifdef __CUDA_ARCH__\n")
  ++ ("#if __CUDA_ARCH__ >= " ++ SM_S ++ "0\n#if __CUDA_ARCH__ < " ++ SM_MAX_S ++ "0\n")
  ++ "  if (!p.advance_to_block()) \x7b\n    return;\n  \x7d\n"
  ++ ("  " ++ CPP_CLASS ++ "::attention_kernel(p);\n  return;\n")
  ++ "#endif\n#endif\n"
  ++ ("    printf(\n        \"FATAL: kernel `" ++ NAME ++ "` is for sm" ++ SM_S ++ "-sm"
      ++ SM_MAX_S ++ ", but was built for sm%d\\n\",\n        int(__CUDA_ARCH__ + 0) / 10);\n")
  ++ "#endif\n\x7d\n"

/-- Forward-pass kernel variant (`FwdKernel` dataclass fields, in
declaration order; the derived `sort_index` is not stored but computed by
`FwdKernel.sort_index`). -/
structure FwdKernel where
  aligned : Bool
  dtype : String
  sm : Nat
  sm_max : Nat
  q : Nat
  k : Nat
  single_value_iter : Bool
  supports_dropout : Bool := true
  supports_bias : Bool := true

instance : DecidableEq FwdKernel := fun a b =>
  decidable_of_iff
    (a.aligned = b.aligned ∧ a.dtype = b.dtype ∧ a.sm = b.sm ∧ a.sm_max = b.sm_max ∧
      a.q = b.q ∧ a.k = b.k ∧ a.single_value_iter = b.single_value_iter ∧
      a.supports_dropout = b.supports_dropout ∧ a.supports_bias = b.supports_bias)
    (by cases a; cases b; simp)

/-- `FwdKernel.__post_init__`: the kernel selection priority tuple. -/
def FwdKernel.sort_index (x : FwdKernel) : Nat × Nat × Nat × Nat × Nat :=
  (if x.aligned then 0 else 1,
   if x.single_value_iter then 0 else 1,
   x.k,
   if x.supports_dropout then 1 else 0,
   if x.supports_bias then 1 else 0)

/-- A 5-tuple of naturals viewed under the lexicographic order (Python
tuple comparison). -/
def lex5 (t : Nat × Nat × Nat × Nat × Nat) : Nat ×ₗ Nat ×ₗ Nat ×ₗ Nat ×ₗ Nat :=
  toLex (t.1, toLex (t.2.1, toLex (t.2.2.1, toLex (t.2.2.2.1, t.2.2.2.2))))

/-- A 3-tuple of naturals viewed under the lexicographic order. -/
def lex3 (t : Nat × Nat × Nat) : Nat ×ₗ Nat ×ₗ Nat :=
  toLex (t.1, toLex (t.2.1, t.2.2))

/-- The comparison key of `@dataclass(order=True)` on `FwdKernel`: the
tuple of all fields in declaration order (`sort_index` first), compared
lexicographically. -/
def FwdKernel.cmpKey (x : FwdKernel) :
    (Nat ×ₗ Nat ×ₗ Nat ×ₗ Nat ×ₗ Nat) ×ₗ Bool ×ₗ String ×ₗ Nat ×ₗ Nat ×ₗ Nat ×ₗ Nat ×ₗ
      Bool ×ₗ Bool ×ₗ Bool :=
  toLex (lex5 x.sort_index, toLex (x.aligned, toLex (x.dtype, toLex (x.sm,
    toLex (x.sm_max, toLex (x.q, toLex (x.k, toLex (x.single_value_iter,
      toLex (x.supports_dropout, x.supports_bias)))))))))

/-- The dataclass order on forward variants: compare by `cmpKey` (which is
injective, since every field occurs in the key). -/
instance : LinearOrder FwdKernel :=
  LinearOrder.lift' FwdKernel.cmpKey (by
    rintro ⟨⟩ ⟨⟩ h
    simp only [FwdKernel.cmpKey, toLex_inj, Prod.mk.injEq, lex5] at h
    simp_all)

/-- `FwdKernel._aligned_suffix`. -/
def FwdKernel.aligned_suffix (x : FwdKernel) : String :=
  if x.aligned then "aligned" else "notaligned"

/-- `FwdKernel.name`: the canonical kernel name. -/
def FwdKernel.name (x : FwdKernel) : String :=
  let acc := if x.single_value_iter then "rf" else "gmem"
  "fmha_cutlassF_" ++ x.dtype ++ "_" ++ x.aligned_suffix ++ "_" ++ toString x.q ++ "x"
    ++ toString x.k ++ "_" ++ acc ++ "_sm" ++ toString x.sm

/-- `FwdKernel.cpp_class`: the template instantiation. -/
def FwdKernel.cpp_class (x : FwdKernel) : String :=
  "AttentionKernel<" ++ String.intercalate ", "
    [dtypeCpp x.dtype,
     "cutlass::arch::Sm" ++ toString x.sm,
     if x.aligned then "true" else "false",
     toString x.q,
     toString x.k,
     if x.single_value_iter then "true" else "false",
     if x.supports_dropout then "true" else "false",
     if x.supports_bias then "true" else "false"] ++ ">"

/-- `FwdKernel.impl_group`: compilation-unit key. -/
def FwdKernel.impl_group (x : FwdKernel) : String :=
  x.dtype ++ "_" ++ x.aligned_suffix

/-- `FwdKernel.cpp_impl`: rendered entry-point text. -/
def FwdKernel.cpp_impl (x : FwdKernel) : String :=
  KERNEL_IMPL_TEMPLATE x.cpp_class x.name (toString x.sm) (toString x.sm_max)

/-- Dispatch-category key `(dtype, sm, sm_max)` used by `write_decl_impl`. -/
def FwdKernel.cat_key (x : FwdKernel) : String × Nat × Nat :=
  (x.dtype, x.sm, x.sm_max)

/-- `FwdKernel.get_all`: the exclusion-filtered enumeration, in the
iteration order of `itertools.product` with the two `continue` filters. -/
def FwdKernel.get_all : List FwdKernel :=
  [true, false].flatMap fun aligned =>
    (DTYPES.map Prod.fst).flatMap fun dtype =>
      smRanges.flatMap fun sm_pair =>
        if dtype = "bf16" ∧ sm_pair.1 < 80 then []
        else if aligned = false ∧ 80 ≤ sm_pair.1 then []
        else
          [(32, 128, true), (32, 128, false), (64, 64, true)].map fun qks =>
            { aligned := aligned, dtype := dtype, sm := sm_pair.1, sm_max := sm_pair.2,
              q := qks.1, k := qks.2.1, single_value_iter := qks.2.2,
              supports_dropout := true, supports_bias := true }

/-- Backward-pass kernel variant (`BwdKernel` dataclass fields in
declaration order). -/
structure BwdKernel where
  sm : Nat
  sm_max : Nat
  dtype : String
  aligned : Bool
  apply_dropout : Bool
  max_k : Nat

instance : DecidableEq BwdKernel := fun a b =>
  decidable_of_iff
    (a.sm = b.sm ∧ a.sm_max = b.sm_max ∧ a.dtype = b.dtype ∧ a.aligned = b.aligned ∧
      a.apply_dropout = b.apply_dropout ∧ a.max_k = b.max_k)
    (by cases a; cases b; simp)

/-- `BwdKernel.__post_init__`: the kernel selection priority tuple. -/
def BwdKernel.sort_index (x : BwdKernel) : Nat × Nat × Nat :=
  (if x.aligned then 0 else 1,
   if x.apply_dropout then 1 else 0,
   x.max_k)

/-- The comparison key of `@dataclass(order=True)` on `BwdKernel`:
`(sort_index, sm, sm_max, dtype, aligned, apply_dropout, max_k)`,
compared lexicographically. -/
def BwdKernel.cmpKey (x : BwdKernel) :
    (Nat ×ₗ Nat ×ₗ Nat) ×ₗ Nat ×ₗ Nat ×ₗ String ×ₗ Bool ×ₗ Bool ×ₗ Nat :=
  toLex (lex3 x.sort_index, toLex (x.sm, toLex (x.sm_max, toLex (x.dtype,
    toLex (x.aligned, toLex (x.apply_dropout, x.max_k))))))

/-- The dataclass order on backward variants: compare by `cmpKey` (which
is injective, since every field occurs in the key). -/
instance : LinearOrder BwdKernel :=
  LinearOrder.lift' BwdKernel.cmpKey (by
    rintro ⟨⟩ ⟨⟩ h
    simp only [BwdKernel.cmpKey, toLex_inj, Prod.mk.injEq, lex3] at h
    simp_all)

/-- `BwdKernel._aligned_suffix`. -/
def BwdKernel.aligned_suffix (x : BwdKernel) : String :=
  if x.aligned then "aligned" else "notaligned"

/-- `BwdKernel.name`: the canonical kernel name. -/
def BwdKernel.name (x : BwdKernel) : String :=
  let dropout_suffix := if x.apply_dropout then "_dropout" else ""
  "fmha_cutlassB_" ++ x.dtype ++ "_" ++ x.aligned_suffix ++ "_k" ++ toString x.max_k
    ++ dropout_suffix ++ "_sm" ++ toString x.sm

/-- `BwdKernel.cpp_class`: the template instantiation. -/
def BwdKernel.cpp_class (x : BwdKernel) : String :=
  "AttentionBackwardKernel<" ++ String.intercalate ", "
    ["cutlass::arch::Sm" ++ toString x.sm,
     dtypeCpp x.dtype,
     if x.aligned then "true" else "false",
     if x.apply_dropout then "true" else "false",
     toString x.max_k] ++ ">"

/-- `BwdKernel.impl_group`: compilation-unit key. -/
def BwdKernel.impl_group (x : BwdKernel) : String :=
  let dropout_suffix := if x.apply_dropout then "_dropout" else ""
  x.dtype ++ "_" ++ x.aligned_suffix ++ "_k" ++ toString x.max_k ++ dropout_suffix

/-- `BwdKernel.cpp_impl`: rendered entry-point text. -/
def BwdKernel.cpp_impl (x : BwdKernel) : String :=
  KERNEL_IMPL_TEMPLATE x.cpp_class x.name (toString x.sm) (toString x.sm_max)

/-- Dispatch-category key `(dtype, sm, sm_max)`. -/
def BwdKernel.cat_key (x : BwdKernel) : String × Nat × Nat :=
  (x.dtype, x.sm, x.sm_max)

/-- `BwdKernel.get_all`: the exclusion-filtered enumeration. -/
def BwdKernel.get_all : List BwdKernel :=
  [true, false].flatMap fun aligned =>
    (DTYPES.map Prod.fst).flatMap fun dtype =>
      smRanges.flatMap fun sm_pair =>
        [true, false].flatMap fun apply_dropout =>
          [32, 64, 128, 2 ^ 16].flatMap fun max_k =>
            if dtype = "bf16" ∧ sm_pair.1 < 80 then []
            else if aligned = false ∧ 80 ≤ sm_pair.1 then []
            else
              [{ sm := sm_pair.1, sm_max := sm_pair.2, dtype := dtype, aligned := aligned,
                 apply_dropout := apply_dropout, max_k := max_k }]

/-- Insertion-ordered key list: the iteration order of a Python dict whose
keys are inserted while scanning a list (first occurrence wins). -/
def insertionKeys {κ : Type} [DecidableEq κ] (l : List κ) : List κ :=
  l.foldl (fun acc c => if c ∈ acc then acc else acc ++ [c]) []

/-- The sorted variant list: `kernels.sort()` (stable sort by the dataclass
order; the result is the unique sorted permutation, see
`generation_deterministic`). -/
def sortedKernels {K : Type} [LinearOrder K] (kernels : List K) : List K :=
  kernels.mergeSort

/-- Category keys of `cat_to_kernels`, in dict insertion order. -/
def catKeysOf {K : Type} [LinearOrder K] (cat_key : K → String × Nat × Nat)
    (kernels : List K) : List (String × Nat × Nat) :=
  insertionKeys ((sortedKernels kernels).map cat_key)

/-- Member list of one category group of `cat_to_kernels`. -/
def catGroupOf {K : Type} [LinearOrder K] (cat_key : K → String × Nat × Nat)
    (kernels : List K) (c : String × Nat × Nat) : List K :=
  (sortedKernels kernels).filter fun x => decide (cat_key x = c)

/-- Compilation-unit keys of `implfile_to_kernels`, in dict insertion
order. -/
def implKeysOf {K : Type} [LinearOrder K] (impl_group : K → String)
    (kernels : List K) : List String :=
  insertionKeys ((sortedKernels kernels).map impl_group)

/-- Member list of one compilation-unit group of `implfile_to_kernels`. -/
def implGroupOf {K : Type} [LinearOrder K] (impl_group : K → String)
    (kernels : List K) (g : String) : List K :=
  (sortedKernels kernels).filter fun x => decide (impl_group x = g)

/-- `write_decl_impl`: sorts the variants, groups them by category and by
compilation unit, and renders the declaration artifact (forward
declarations, per-category dispatch helpers, top-level dispatch function)
and the per-compilation-unit implementation artifacts.  Returns the
declaration file `(name, text)` and the list of implementation files
`(name, text)`. -/
def write_decl_impl {K : Type} [LinearOrder K] [DecidableEq K]
    (impl_group : K → String) (cat_key : K → String × Nat × Nat)
    (cpp_impl : K → String) (cpp_class : K → String) (kname : K → String)
    (kernels : List K) (family_name impl_file disable_def : String) :
    (String × String) × List (String × String) :=
  let cpp_file_header :=
    "// This file is auto-generated. See \"generate_kernels.py\"\n#include \""
      ++ impl_file ++ "\"\n\n"
  let cat_keys := catKeysOf cat_key kernels
  let impl_keys := implKeysOf impl_group kernels
  let cat_block := fun (c : String × Nat × Nat) =>
    "// ======== " ++ c.1 ++ " / sm" ++ toString c.2.1 ++ " ========\n"
    ++ String.intercalate "\n"
        ((catGroupOf cat_key kernels c).map fun x =>
          (((cpp_impl x).splitOn "\x7b").headD "").trimRight ++ ";")
    ++ "\n\ntemplate <typename T> void dispatch_" ++ family_name ++ "_" ++ c.1
    ++ "_sm" ++ toString c.2.1 ++ "(T cb) \x7b\n"
    ++ String.intercalate "\n"
        ((catGroupOf cat_key kernels c).map fun x =>
          "    cb(" ++ cpp_class x ++ "(), " ++ kname x ++ ");")
    ++ "\n\x7d\n" ++ "\n"
  let dispatch_block := fun (c : String × Nat × Nat) =>
    "\n    if (std::is_same<DT, " ++ dtypeCpp c.1 ++ ">::value && " ++ toString c.2.1
    ++ " <= cc && cc < " ++ toString c.2.2 ++ ") \x7b\n        dispatch_"
    ++ family_name ++ "_" ++ c.1 ++ "_sm" ++ toString c.2.1 ++ "(cb);\n    \x7d"
  let declarations :=
    cpp_file_header ++ "#pragma once\n" ++ "#ifndef " ++ disable_def ++ "\n"
    ++ String.join (cat_keys.map cat_block)
    ++ "\ntemplate <typename DT, typename T>\nvoid dispatch_" ++ family_name
    ++ "(T cb, int cc = 0) \x7b\n"
    ++ String.join (cat_keys.map dispatch_block)
    ++ "\n\x7d\n"
    ++ "#endif // " ++ disable_def ++ "\n"
  let impl_files := impl_keys.map fun g =>
    (family_name ++ "_" ++ g ++ ".cu",
     "#ifndef " ++ disable_def ++ "\n" ++ cpp_file_header
       ++ String.join ((implGroupOf impl_group kernels g).map cpp_impl)
       ++ "#endif // " ++ disable_def ++ "\n")
  ((family_name ++ ".h", declarations), impl_files)

/-- The sorted forward variant list inside `write_decl_impl`. -/
def fwdSorted : List FwdKernel := sortedKernels FwdKernel.get_all

/-- Forward category keys, in emission order. -/
def fwdCatKeys : List (String × Nat × Nat) := catKeysOf FwdKernel.cat_key FwdKernel.get_all

/-- Forward category group members. -/
def fwdCatGroup (c : String × Nat × Nat) : List FwdKernel :=
  catGroupOf FwdKernel.cat_key FwdKernel.get_all c

/-- Forward compilation-unit keys. -/
def fwdImplKeys : List String := implKeysOf FwdKernel.impl_group FwdKernel.get_all

/-- Forward compilation-unit group members. -/
def fwdImplGroup (g : String) : List FwdKernel :=
  implGroupOf FwdKernel.impl_group FwdKernel.get_all g

/-- The sorted backward variant list inside `write_decl_impl`. -/
def bwdSorted : List BwdKernel := sortedKernels BwdKernel.get_all

/-- Backward category keys, in emission order. -/
def bwdCatKeys : List (String × Nat × Nat) := catKeysOf BwdKernel.cat_key BwdKernel.get_all

/-- Backward category group members. -/
def bwdCatGroup (c : String × Nat × Nat) : List BwdKernel :=
  catGroupOf BwdKernel.cat_key BwdKernel.get_all c

/-- Backward compilation-unit keys. -/
def bwdImplKeys : List String := implKeysOf BwdKernel.impl_group BwdKernel.get_all

/-- Backward compilation-unit group members. -/
def bwdImplGroup (g : String) : List BwdKernel :=
  implGroupOf BwdKernel.impl_group BwdKernel.get_all g

/-- Condition of one emitted `if` block of the top-level dispatch function:
`std::is_same<DT, DTYPES[cat_dt]>::value && cat_sm <= cc && cc < cat_sm_max`,
for runtime precision type `dt` and capability value `cc`. -/
def dispatch_cond (c : String × Nat × Nat) (dt : String) (cc : Int) : Prop :=
  dt = dtypeCpp c.1 ∧ (c.2.1 : Int) ≤ cc ∧ cc < (c.2.2 : Int)

set_option maxRecDepth 1000000
set_option maxHeartbeats 4000000

theorem insertionKeys_aux {κ : Type} [DecidableEq κ] (l : List κ) (c : κ) :
    ∀ acc, c ∈ l.foldl (fun acc c => if c ∈ acc then acc else acc ++ [c]) acc ↔
      c ∈ acc ∨ c ∈ l := by
  induction l with
  | nil => simp
  | cons a l ih =>
    intro acc
    simp only [List.foldl_cons]
    by_cases h : a ∈ acc
    · rw [if_pos h, ih]
      simp only [List.mem_cons]
      constructor
      · rintro (hc | hc)
        · exact Or.inl hc
        · exact Or.inr (Or.inr hc)
      · rintro (hc | rfl | hc)
        · exact Or.inl hc
        · exact Or.inl h
        · exact Or.inr hc
    · rw [if_neg h, ih]
      simp only [List.mem_append, List.mem_singleton, List.mem_cons]
      tauto

theorem mem_insertionKeys {κ : Type} [DecidableEq κ] (l : List κ) (c : κ) :
    c ∈ insertionKeys l ↔ c ∈ l := by
  simpa using insertionKeys_aux l c []

theorem existsUnique_group {α κ : Type} [DecidableEq κ] (key : α → κ) (l : List α) (x : α) :
    (∃! c, c ∈ insertionKeys (l.map key) ∧ x ∈ l.filter fun y => decide (key y = c)) ↔
      x ∈ l := by
  constructor
  · rintro ⟨c, ⟨_, hx⟩, _⟩
    exact (List.mem_filter.mp hx).1
  · intro hx
    refine ⟨key x, ⟨?_, ?_⟩, ?_⟩
    · exact (mem_insertionKeys _ _).mpr (List.mem_map_of_mem key hx)
    · exact List.mem_filter.mpr ⟨hx, by simp⟩
    · rintro c' ⟨_, hx'⟩
      have h := (List.mem_filter.mp hx').2
      simp only [decide_eq_true_eq] at h
      exact h.symm

theorem fwdSorted_perm : fwdSorted.Perm FwdKernel.get_all := List.mergeSort_perm _ _

theorem bwdSorted_perm : bwdSorted.Perm BwdKernel.get_all := List.mergeSort_perm _ _

theorem mem_fwdCatKeys (c : String × Nat × Nat) :
    c ∈ fwdCatKeys ↔ c ∈ insertionKeys (FwdKernel.get_all.map FwdKernel.cat_key) := by
  rw [fwdCatKeys, catKeysOf, mem_insertionKeys, mem_insertionKeys]
  exact (List.Perm.map _ (List.mergeSort_perm _ _)).mem_iff

theorem mem_bwdCatKeys (c : String × Nat × Nat) :
    c ∈ bwdCatKeys ↔ c ∈ insertionKeys (BwdKernel.get_all.map BwdKernel.cat_key) := by
  rw [bwdCatKeys, catKeysOf, mem_insertionKeys, mem_insertionKeys]
  exact (List.Perm.map _ (List.mergeSort_perm _ _)).mem_iff

/-- C1. For every variant produced by `FwdKernel.get_all` or
`BwdKernel.get_all`, the exclusion rules hold: no variant with dtype
`"bf16"` has `sm` below 80, and no variant with `aligned = false` has `sm`
at or above 80. -/
theorem exclusion_rules_hold :
    (∀ x ∈ FwdKernel.get_all, (x.dtype = "bf16" → 80 ≤ x.sm) ∧ (x.aligned = false → x.sm < 80))
    ∧ (∀ x ∈ BwdKernel.get_all,
        (x.dtype = "bf16" → 80 ≤ x.sm) ∧ (x.aligned = false → x.sm < 80)) := by
  constructor <;> decide

theorem exclusion_rules_hold_witness :
    80 ≤ (FwdKernel.mk true "bf16" 80 90 32 128 true true true).sm :=
  (exclusion_rules_hold.1 _ (by decide)).1 (by decide)

theorem bwdNames_nodup_1 : ((BwdKernel.get_all.map BwdKernel.name).take 30).Nodup := by
  decide

theorem bwdNames_nodup_2 :
    (((BwdKernel.get_all.map BwdKernel.name).drop 30).take 30).Nodup := by decide

theorem bwdNames_nodup_3 :
    ((((BwdKernel.get_all.map BwdKernel.name).drop 30).drop 30).take 30).Nodup := by decide

theorem bwdNames_nodup_4 :
    ((((BwdKernel.get_all.map BwdKernel.name).drop 30).drop 30).drop 30).Nodup := by decide

theorem bwdNames_disj_12 : ∀ a ∈ (BwdKernel.get_all.map BwdKernel.name).take 30,
    a ∉ ((BwdKernel.get_all.map BwdKernel.name).drop 30).take 30 := by decide

theorem bwdNames_disj_13 : ∀ a ∈ (BwdKernel.get_all.map BwdKernel.name).take 30,
    a ∉ (((BwdKernel.get_all.map BwdKernel.name).drop 30).drop 30).take 30 := by decide

theorem bwdNames_disj_14 : ∀ a ∈ (BwdKernel.get_all.map BwdKernel.name).take 30,
    a ∉ (((BwdKernel.get_all.map BwdKernel.name).drop 30).drop 30).drop 30 := by decide

theorem bwdNames_disj_23 : ∀ a ∈ ((BwdKernel.get_all.map BwdKernel.name).drop 30).take 30,
    a ∉ (((BwdKernel.get_all.map BwdKernel.name).drop 30).drop 30).take 30 := by decide

theorem bwdNames_disj_24 : ∀ a ∈ ((BwdKernel.get_all.map BwdKernel.name).drop 30).take 30,
    a ∉ (((BwdKernel.get_all.map BwdKernel.name).drop 30).drop 30).drop 30 := by decide

theorem bwdNames_disj_34 :
    ∀ a ∈ (((BwdKernel.get_all.map BwdKernel.name).drop 30).drop 30).take 30,
      a ∉ (((BwdKernel.get_all.map BwdKernel.name).drop 30).drop 30).drop 30 := by decide

/-- C2. Within each family, the canonical names of all enumerated variants
are pairwise distinct. -/
theorem canonical_names_distinct :
    (FwdKernel.get_all.map FwdKernel.name).Nodup
    ∧ (BwdKernel.get_all.map BwdKernel.name).Nodup := by
  constructor
  · decide
  · have hsplit : BwdKernel.get_all.map BwdKernel.name
        = (BwdKernel.get_all.map BwdKernel.name).take 30
          ++ (((BwdKernel.get_all.map BwdKernel.name).drop 30).take 30
          ++ ((((BwdKernel.get_all.map BwdKernel.name).drop 30).drop 30).take 30
          ++ (((BwdKernel.get_all.map BwdKernel.name).drop 30).drop 30).drop 30)) := by
      rw [List.take_append_drop, List.take_append_drop, List.take_append_drop]
    rw [hsplit, List.nodup_append]
    refine ⟨bwdNames_nodup_1, ?_, ?_⟩
    · rw [List.nodup_append]
      refine ⟨bwdNames_nodup_2, ?_, ?_⟩
      · rw [List.nodup_append]
        exact ⟨bwdNames_nodup_3, bwdNames_nodup_4, fun a ha hb => bwdNames_disj_34 a ha hb⟩
      · intro a ha hb
        rcases List.mem_append.mp hb with h | h
        · exact bwdNames_disj_23 a ha h
        · exact bwdNames_disj_24 a ha h
    · intro a ha hb
      rcases List.mem_append.mp hb with h | h
      · exact bwdNames_disj_12 a ha h
      · rcases List.mem_append.mp h with h2 | h2
        · exact bwdNames_disj_13 a ha h2
        · exact bwdNames_disj_14 a ha h2

/-- C3. The forward comparator orders variants by the `sort_index` field
sequence (aligned first, then register-resident accumulator, then
ascending `k`, then no-dropout-support first, then no-bias-support first):
whenever the sort indexes compare lexicographically, the dataclass order
agrees; and the concrete `f16`/[80,90)/aligned/(32,128)/register-resident
variant without dropout and bias support sorts strictly before the
otherwise-identical variant with both. -/
theorem fwd_comparator_field_sequence :
    (∀ a b : FwdKernel, lex5 a.sort_index < lex5 b.sort_index → a < b)
    ∧ FwdKernel.mk true "f16" 80 90 32 128 true false false <
        FwdKernel.mk true "f16" 80 90 32 128 true true true := by
  constructor
  · intro a b h
    show a.cmpKey < b.cmpKey
    simp only [FwdKernel.cmpKey]
    rw [Prod.Lex.lt_iff]
    exact Or.inl h
  · decide

theorem fwd_comparator_field_sequence_witness :
    FwdKernel.mk true "f32" 50 70 32 128 true true true <
      FwdKernel.mk false "f32" 50 70 32 128 true true true :=
  fwd_comparator_field_sequence.1 _ _ (by decide)

/-- C4. The backward comparator orders variants by aligned first, then
no-dropout-application first, then ascending `max_k` (the sentinel
`2 ^ 16` sorts last): whenever the sort indexes compare lexicographically
the dataclass order agrees, and among variants identical in dtype,
alignment, sm range and dropout, `max_k = 128` sorts strictly before the
sentinel and `max_k = 32` sorts strictly before both. -/
theorem bwd_comparator_field_sequence :
    (∀ a b : BwdKernel, lex3 a.sort_index < lex3 b.sort_index → a < b)
    ∧ (∀ a b : BwdKernel, a.dtype = b.dtype → a.aligned = b.aligned → a.sm = b.sm →
        a.sm_max = b.sm_max → a.apply_dropout = b.apply_dropout →
        a.max_k = 128 → b.max_k = 2 ^ 16 → a < b)
    ∧ (∀ a b : BwdKernel, a.dtype = b.dtype → a.aligned = b.aligned → a.sm = b.sm →
        a.sm_max = b.sm_max → a.apply_dropout = b.apply_dropout →
        a.max_k = 32 → (b.max_k = 128 ∨ b.max_k = 2 ^ 16) → a < b) := by
  have h1 : ∀ a b : BwdKernel, lex3 a.sort_index < lex3 b.sort_index → a < b := by
    intro a b h
    show a.cmpKey < b.cmpKey
    simp only [BwdKernel.cmpKey]
    rw [Prod.Lex.lt_iff]
    exact Or.inl h
  have hidx : ∀ a b : BwdKernel, a.aligned = b.aligned → a.apply_dropout = b.apply_dropout →
      a.max_k < b.max_k → lex3 a.sort_index < lex3 b.sort_index := by
    intro a b hal hdrop hmk
    simp only [BwdKernel.sort_index, lex3, hal, hdrop]
    rw [Prod.Lex.lt_iff]
    refine Or.inr ⟨rfl, ?_⟩
    rw [Prod.Lex.lt_iff]
    exact Or.inr ⟨rfl, hmk⟩
  refine ⟨h1, ?_, ?_⟩
  · intro a b _ hal _ _ hdrop hma hmb
    exact h1 _ _ (hidx _ _ hal hdrop (by rw [hma, hmb]; norm_num))
  · intro a b _ hal _ _ hdrop hma hmb
    refine h1 _ _ (hidx _ _ hal hdrop ?_)
    rcases hmb with h | h <;> rw [hma, h] <;> norm_num

theorem bwd_comparator_field_sequence_witness :
    BwdKernel.mk 80 90 "f16" true false 128 < BwdKernel.mk 80 90 "f16" true false (2 ^ 16) :=
  bwd_comparator_field_sequence.2.1 _ _ rfl rfl rfl rfl rfl rfl rfl

/-- C5. For each family the dataclass comparator is a strict total order
on the enumerated set: irreflexive, transitive, and any two distinct
enumerated variants are strictly ordered one way. -/
theorem comparator_strict_total_order :
    ((∀ a : FwdKernel, ¬ a < a)
     ∧ (∀ a b c : FwdKernel, a < b → b < c → a < c)
     ∧ (∀ a b : FwdKernel, a ∈ FwdKernel.get_all → b ∈ FwdKernel.get_all → a ≠ b →
         a < b ∨ b < a))
    ∧ ((∀ a : BwdKernel, ¬ a < a)
     ∧ (∀ a b c : BwdKernel, a < b → b < c → a < c)
     ∧ (∀ a b : BwdKernel, a ∈ BwdKernel.get_all → b ∈ BwdKernel.get_all → a ≠ b →
         a < b ∨ b < a)) :=
  ⟨⟨fun a => lt_irrefl a, fun _ _ _ => lt_trans, fun _ _ _ _ h => h.lt_or_lt⟩,
   ⟨fun a => lt_irrefl a, fun _ _ _ => lt_trans, fun _ _ _ _ h => h.lt_or_lt⟩⟩

theorem comparator_strict_total_order_witness :
    FwdKernel.mk true "f32" 50 70 32 128 true true true <
        FwdKernel.mk false "f32" 50 70 32 128 true true true
    ∨ FwdKernel.mk false "f32" 50 70 32 128 true true true <
        FwdKernel.mk true "f32" 50 70 32 128 true true true :=
  comparator_strict_total_order.1.2.2 _ _ (by decide) (by decide) (by decide)

/-- C6. In `write_decl_impl`, every variant of the (sorted) input list
lies in exactly one category group and exactly one compilation-unit
group, and the union of either family of groups is the full enumerated
variant set. -/
theorem write_decl_impl_partitions :
    (∀ x : FwdKernel,
        ((∃! c, c ∈ fwdCatKeys ∧ x ∈ fwdCatGroup c) ↔ x ∈ fwdSorted)
      ∧ ((∃! g, g ∈ fwdImplKeys ∧ x ∈ fwdImplGroup g) ↔ x ∈ fwdSorted)
      ∧ (x ∈ fwdSorted ↔ x ∈ FwdKernel.get_all))
    ∧ (∀ x : BwdKernel,
        ((∃! c, c ∈ bwdCatKeys ∧ x ∈ bwdCatGroup c) ↔ x ∈ bwdSorted)
      ∧ ((∃! g, g ∈ bwdImplKeys ∧ x ∈ bwdImplGroup g) ↔ x ∈ bwdSorted)
      ∧ (x ∈ bwdSorted ↔ x ∈ BwdKernel.get_all)) := by
  constructor
  · intro x
    refine ⟨?_, ?_, fwdSorted_perm.mem_iff⟩
    · simpa only [fwdCatKeys, catKeysOf, fwdCatGroup, catGroupOf, fwdSorted] using
        existsUnique_group FwdKernel.cat_key (sortedKernels FwdKernel.get_all) x
    · simpa only [fwdImplKeys, implKeysOf, fwdImplGroup, implGroupOf, fwdSorted] using
        existsUnique_group FwdKernel.impl_group (sortedKernels FwdKernel.get_all) x
  · intro x
    refine ⟨?_, ?_, bwdSorted_perm.mem_iff⟩
    · simpa only [bwdCatKeys, catKeysOf, bwdCatGroup, catGroupOf, bwdSorted] using
        existsUnique_group BwdKernel.cat_key (sortedKernels BwdKernel.get_all) x
    · simpa only [bwdImplKeys, implKeysOf, bwdImplGroup, implGroupOf, bwdSorted] using
        existsUnique_group BwdKernel.impl_group (sortedKernels BwdKernel.get_all) x

theorem write_decl_impl_partitions_witness :
    FwdKernel.mk true "f32" 50 70 32 128 true true true ∈ fwdSorted :=
  ((write_decl_impl_partitions.1 _).2.2).mpr (by decide)

/-- C10. Every forward variant produced by the enumerator has
`supports_dropout = true` and `supports_bias = true`, so the dropout/bias
components of the forward priority tuple never distinguish two generated
variants. -/
theorem fwd_always_supports_dropout_bias :
    (∀ x ∈ FwdKernel.get_all, x.supports_dropout = true ∧ x.supports_bias = true)
    ∧ (∀ x ∈ FwdKernel.get_all, ∀ y ∈ FwdKernel.get_all,
        x.sort_index.2.2.2 = y.sort_index.2.2.2) := by
  have h : ∀ x ∈ FwdKernel.get_all, x.supports_dropout = true ∧ x.supports_bias = true := by
    decide
  refine ⟨h, fun x hx y hy => ?_⟩
  obtain ⟨h1, h2⟩ := h x hx
  obtain ⟨h3, h4⟩ := h y hy
  simp [FwdKernel.sort_index, h1, h2, h3, h4]

theorem fwd_always_supports_dropout_bias_witness :
    (FwdKernel.mk true "f32" 50 70 32 128 true true true).supports_dropout = true :=
  (fwd_always_supports_dropout_bias.1 _ (by decide)).1

/-- C7. Each `if` block of the emitted top-level dispatch invokes its
category helper exactly when the runtime precision type equals the
category's dtype mapping and `sm_min <= cc < sm_max` (`dispatch_cond`);
for any precision type and capability value at most one category's
condition holds, for `bf16` every category has range [80, 90), and at
precision `bf16` / capability 86 exactly the [80, 90) category is
selected. -/
theorem dispatch_selects_unique_category :
    (∀ (dt : String) (cc : Int), ∀ c₁ ∈ fwdCatKeys, ∀ c₂ ∈ fwdCatKeys,
        dispatch_cond c₁ dt cc → dispatch_cond c₂ dt cc → c₁ = c₂)
    ∧ (∀ c ∈ fwdCatKeys, c.1 = "bf16" → c.2.1 = 80 ∧ c.2.2 = 90)
    ∧ (("bf16", 80, 90) ∈ fwdCatKeys ∧ dispatch_cond ("bf16", 80, 90) "cutlass::bfloat16_t" 86)
    ∧ (∀ c ∈ fwdCatKeys, dispatch_cond c "cutlass::bfloat16_t" 86 → c = ("bf16", 80, 90))
    ∧ (∀ (dt : String) (cc : Int), ∀ c₁ ∈ bwdCatKeys, ∀ c₂ ∈ bwdCatKeys,
        dispatch_cond c₁ dt cc → dispatch_cond c₂ dt cc → c₁ = c₂)
    ∧ (∀ c ∈ bwdCatKeys, c.1 = "bf16" → c.2.1 = 80 ∧ c.2.2 = 90)
    ∧ (("bf16", 80, 90) ∈ bwdCatKeys ∧ dispatch_cond ("bf16", 80, 90) "cutlass::bfloat16_t" 86)
    ∧ (∀ c ∈ bwdCatKeys, dispatch_cond c "cutlass::bfloat16_t" 86 → c = ("bf16", 80, 90)) := by
  have hdisjF : ∀ c₁ ∈ insertionKeys (FwdKernel.get_all.map FwdKernel.cat_key),
      ∀ c₂ ∈ insertionKeys (FwdKernel.get_all.map FwdKernel.cat_key),
      dtypeCpp c₁.1 = dtypeCpp c₂.1 → c₁.2.2 ≤ c₂.2.1 ∨ c₂.2.2 ≤ c₁.2.1 ∨ c₁ = c₂ := by
    decide
  have hdisjB : ∀ c₁ ∈ insertionKeys (BwdKernel.get_all.map BwdKernel.cat_key),
      ∀ c₂ ∈ insertionKeys (BwdKernel.get_all.map BwdKernel.cat_key),
      dtypeCpp c₁.1 = dtypeCpp c₂.1 → c₁.2.2 ≤ c₂.2.1 ∨ c₂.2.2 ≤ c₁.2.1 ∨ c₁ = c₂ := by
    decide
  have hbfF : ∀ c ∈ insertionKeys (FwdKernel.get_all.map FwdKernel.cat_key),
      c.1 = "bf16" → c.2.1 = 80 ∧ c.2.2 = 90 := by decide
  have hbfB : ∀ c ∈ insertionKeys (BwdKernel.get_all.map BwdKernel.cat_key),
      c.1 = "bf16" → c.2.1 = 80 ∧ c.2.2 = 90 := by decide
  have honlyF : ∀ c ∈ insertionKeys (FwdKernel.get_all.map FwdKernel.cat_key),
      "cutlass::bfloat16_t" = dtypeCpp c.1 → c.2.1 ≤ 86 → 86 < c.2.2 →
        c = ("bf16", 80, 90) := by decide
  have honlyB : ∀ c ∈ insertionKeys (BwdKernel.get_all.map BwdKernel.cat_key),
      "cutlass::bfloat16_t" = dtypeCpp c.1 → c.2.1 ≤ 86 → 86 < c.2.2 →
        c = ("bf16", 80, 90) := by decide
  refine ⟨?_, ?_, ⟨?_, ?_⟩, ?_, ?_, ?_, ⟨?_, ?_⟩, ?_⟩
  · intro dt cc c₁ h₁ c₂ h₂ d₁ d₂
    obtain ⟨hdt₁, hl₁, hr₁⟩ := d₁
    obtain ⟨hdt₂, hl₂, hr₂⟩ := d₂
    rcases hdisjF c₁ ((mem_fwdCatKeys c₁).mp h₁) c₂ ((mem_fwdCatKeys c₂).mp h₂)
        (by rw [← hdt₁, ← hdt₂]) with h | h | h
    · exfalso; omega
    · exfalso; omega
    · exact h
  · exact fun c hc => hbfF c ((mem_fwdCatKeys c).mp hc)
  · exact (mem_fwdCatKeys _).mpr (by decide)
  · exact ⟨by decide, by decide, by decide⟩
  · intro c hc hd
    obtain ⟨hdt, hl, hr⟩ := hd
    exact honlyF c ((mem_fwdCatKeys c).mp hc) hdt (by exact_mod_cast hl) (by exact_mod_cast hr)
  · intro dt cc c₁ h₁ c₂ h₂ d₁ d₂
    obtain ⟨hdt₁, hl₁, hr₁⟩ := d₁
    obtain ⟨hdt₂, hl₂, hr₂⟩ := d₂
    rcases hdisjB c₁ ((mem_bwdCatKeys c₁).mp h₁) c₂ ((mem_bwdCatKeys c₂).mp h₂)
        (by rw [← hdt₁, ← hdt₂]) with h | h | h
    · exfalso; omega
    · exfalso; omega
    · exact h
  · exact fun c hc => hbfB c ((mem_bwdCatKeys c).mp hc)
  · exact (mem_bwdCatKeys _).mpr (by decide)
  · exact ⟨by decide, by decide, by decide⟩
  · intro c hc hd
    obtain ⟨hdt, hl, hr⟩ := hd
    exact honlyB c ((mem_bwdCatKeys c).mp hc) hdt (by exact_mod_cast hl) (by exact_mod_cast hr)

theorem dispatch_selects_unique_category_witness :
    (("bf16", 80, 90) : String × Nat × Nat) = ("bf16", 80, 90) :=
  dispatch_selects_unique_category.2.2.2.1 ("bf16", 80, 90)
    dispatch_selects_unique_category.2.2.1.1
    dispatch_selects_unique_category.2.2.1.2

/-- C8. Every variant's rendered entry point contains, inside the
compile-time capability guard `#if __CUDA_ARCH__ >= sm*10` /
`#if __CUDA_ARCH__ < sm_max*10`, an early-exit returning when
`p.advance_to_block()` is false followed by the specialized body, and
after the guard's two `#endif` lines a fatal `printf` diagnostic naming
the entry point and its expected sm range. -/
theorem cpp_impl_guard_structure :
    (∀ x ∈ FwdKernel.get_all, ∃ pre tail,
        x.cpp_impl =
          pre
          ++ ("#if __CUDA_ARCH__ >= " ++ toString x.sm ++ "0\n#if __CUDA_ARCH__ < "
              ++ toString x.sm_max ++ "0\n")
          ++ "  if (!p.advance_to_block()) \x7b\n    return;\n  \x7d\n"
          ++ ("  " ++ x.cpp_class ++ "::attention_kernel(p);\n  return;\n")
          ++ "#endif\n#endif\n"
          ++ ("    printf(\n        \"FATAL: kernel `" ++ x.name ++ "` is for sm"
              ++ toString x.sm ++ "-sm" ++ toString x.sm_max
              ++ ", but was built for sm%d\\n\",\n        int(__CUDA_ARCH__ + 0) / 10);\n")
          ++ tail
        ∧ toString x.sm ++ "0" = toString (10 * x.sm)
        ∧ toString x.sm_max ++ "0" = toString (10 * x.sm_max))
    ∧ (∀ x ∈ BwdKernel.get_all, ∃ pre tail,
        x.cpp_impl =
          pre
          ++ ("#if __CUDA_ARCH__ >= " ++ toString x.sm ++ "0\n#if __CUDA_ARCH__ < "
              ++ toString x.sm_max ++ "0\n")
          ++ "  if (!p.advance_to_block()) \x7b\n    return;\n  \x7d\n"
          ++ ("  " ++ x.cpp_class ++ "::attention_kernel(p);\n  return;\n")
          ++ "#endif\n#endif\n"
          ++ ("    printf(\n        \"FATAL: kernel `" ++ x.name ++ "` is for sm"
              ++ toString x.sm ++ "-sm" ++ toString x.sm_max
              ++ ", but was built for sm%d\\n\",\n        int(__CUDA_ARCH__ + 0) / 10);\n")
          ++ tail
        ∧ toString x.sm ++ "0" = toString (10 * x.sm)
        ∧ toString x.sm_max ++ "0" = toString (10 * x.sm_max)) := by
  have hsmF : ∀ x ∈ FwdKernel.get_all, (x.sm, x.sm_max) ∈ smRanges := by decide
  have hsmB : ∀ x ∈ BwdKernel.get_all, (x.sm, x.sm_max) ∈ smRanges := by decide
  constructor
  · intro x hx
    have hTS : toString x.sm ++ "0" = toString (10 * x.sm)
        ∧ toString x.sm_max ++ "0" = toString (10 * x.sm_max) := by
      have h := hsmF x hx
      rw [show smRanges = [(50, 70), (70, 75), (75, 80), (80, 90)] from rfl] at h
      simp only [List.mem_cons, List.not_mem_nil, or_false, Prod.mk.injEq] at h
      obtain ⟨h1, h2⟩ | ⟨h1, h2⟩ | ⟨h1, h2⟩ | ⟨h1, h2⟩ := h <;> rw [h1, h2] <;>
        exact ⟨by decide, by decide⟩
    exact ⟨"__global__ void __launch_bounds__(\n    " ++ x.cpp_class
        ++ "::kNumThreads,\n    " ++ x.cpp_class ++ "::kMinBlocksPerSm)\n" ++ x.name
        ++ "(typename " ++ x.cpp_class ++ "::Params p) \x7b\n#ifdef __CUDA_ARCH__\n",
      "#endif\n\x7d\n", rfl, hTS.1, hTS.2⟩
  · intro x hx
    have hTS : toString x.sm ++ "0" = toString (10 * x.sm)
        ∧ toString x.sm_max ++ "0" = toString (10 * x.sm_max) := by
      have h := hsmB x hx
      rw [show smRanges = [(50, 70), (70, 75), (75, 80), (80, 90)] from rfl] at h
      simp only [List.mem_cons, List.not_mem_nil, or_false, Prod.mk.injEq] at h
      obtain ⟨h1, h2⟩ | ⟨h1, h2⟩ | ⟨h1, h2⟩ | ⟨h1, h2⟩ := h <;> rw [h1, h2] <;>
        exact ⟨by decide, by decide⟩
    exact ⟨"__global__ void __launch_bounds__(\n    " ++ x.cpp_class
        ++ "::kNumThreads,\n    " ++ x.cpp_class ++ "::kMinBlocksPerSm)\n" ++ x.name
        ++ "(typename " ++ x.cpp_class ++ "::Params p) \x7b\n#ifdef __CUDA_ARCH__\n",
      "#endif\n\x7d\n", rfl, hTS.1, hTS.2⟩

theorem cpp_impl_guard_structure_witness :
    ∃ pre tail,
      (FwdKernel.mk true "f32" 50 70 32 128 true true true).cpp_impl =
        pre
        ++ ("#if __CUDA_ARCH__ >= " ++ toString (50 : Nat) ++ "0\n#if __CUDA_ARCH__ < "
            ++ toString (70 : Nat) ++ "0\n")
        ++ "  if (!p.advance_to_block()) \x7b\n    return;\n  \x7d\n"
        ++ ("  " ++ (FwdKernel.mk true "f32" 50 70 32 128 true true true).cpp_class
            ++ "::attention_kernel(p);\n  return;\n")
        ++ "#endif\n#endif\n"
        ++ ("    printf(\n        \"FATAL: kernel `"
            ++ (FwdKernel.mk true "f32" 50 70 32 128 true true true).name ++ "` is for sm"
            ++ toString (50 : Nat) ++ "-sm" ++ toString (70 : Nat)
            ++ ", but was built for sm%d\\n\",\n        int(__CUDA_ARCH__ + 0) / 10);\n")
        ++ tail
      ∧ toString (50 : Nat) ++ "0" = toString (10 * (50 : Nat))
      ∧ toString (70 : Nat) ++ "0" = toString (10 * (70 : Nat)) :=
  cpp_impl_guard_structure.1 _ (by decide)

/-- C9. The generation pipeline is deterministic: `write_decl_impl`
produces identical declaration and implementation artifacts from any two
enumerations of the same variant multiset, because the comparator admits a
unique sorted permutation; in particular regenerating from the same
tables yields byte-identical artifacts. -/
theorem generation_deterministic :
    (∀ (l₁ l₂ : List FwdKernel) (fam impl dis : String), l₁.Perm l₂ →
        write_decl_impl FwdKernel.impl_group FwdKernel.cat_key FwdKernel.cpp_impl
            FwdKernel.cpp_class FwdKernel.name l₁ fam impl dis
          = write_decl_impl FwdKernel.impl_group FwdKernel.cat_key FwdKernel.cpp_impl
            FwdKernel.cpp_class FwdKernel.name l₂ fam impl dis)
    ∧ (∀ (l₁ l₂ : List BwdKernel) (fam impl dis : String), l₁.Perm l₂ →
        write_decl_impl BwdKernel.impl_group BwdKernel.cat_key BwdKernel.cpp_impl
            BwdKernel.cpp_class BwdKernel.name l₁ fam impl dis
          = write_decl_impl BwdKernel.impl_group BwdKernel.cat_key BwdKernel.cpp_impl
            BwdKernel.cpp_class BwdKernel.name l₂ fam impl dis) := by
  have key : ∀ {K : Type} [LinearOrder K] (l₁ l₂ : List K), l₁.Perm l₂ →
      sortedKernels l₁ = sortedKernels l₂ := by
    intro K _ l₁ l₂ h
    exact List.eq_of_perm_of_sorted
      ((List.mergeSort_perm l₁ _).trans (h.trans (List.mergeSort_perm l₂ _).symm))
      (List.sorted_mergeSort' l₁) (List.sorted_mergeSort' l₂)
  constructor <;> intro l₁ l₂ fam impl dis h <;>
    simp only [write_decl_impl, catKeysOf, catGroupOf, implKeysOf, implGroupOf, key l₁ l₂ h]

theorem generation_deterministic_witness :
    write_decl_impl FwdKernel.impl_group FwdKernel.cat_key FwdKernel.cpp_impl
        FwdKernel.cpp_class FwdKernel.name FwdKernel.get_all.reverse "cutlassF"
        "../kernel_forward.h" "XFORMERS_MEM_EFF_ATTENTION_DISABLE_FORWARD"
      = write_decl_impl FwdKernel.impl_group FwdKernel.cat_key FwdKernel.cpp_impl
        FwdKernel.cpp_class FwdKernel.name FwdKernel.get_all "cutlassF"
        "../kernel_forward.h" "XFORMERS_MEM_EFF_ATTENTION_DISABLE_FORWARD" :=
  generation_deterministic.1 _ _ _ _ _ (List.reverse_perm _)
